import Mathlib

/-!
# Verification of the cyhy-config configuration pipeline

A shallow embedding of the `cyhy_config` Python package (modules
`cyhy_config.py`, `find_config.py`, `models/config_model.py`) into Lean 4,
together with theorems settling the behavioural claims about it.

External collaborators (the filesystem, the process environment, the AWS SSM
parameter store, and the `tomllib` parser) are modelled as fields of an
explicit `Env` record; the package's own control flow is translated
function-by-function from the Python source.

Python truthiness conventions that the source relies on (`if file_path:`,
`if env_file_value:`, `if path:`, `if config:`) are embedded explicitly:
`None` and the empty string are falsy for optional string parameters, and an
empty dict is falsy for a configuration value.
-/

namespace CyhyConfig

/-! ## TOML-like values

`tomllib` produces Python dicts/lists/scalars.  Python dicts preserve
insertion order and (for TOML) have unique string keys, so a table is
modelled as an association list. -/

/-- A value as produced by parsing TOML: string, integer, boolean, array, or
table (string-keyed mapping in insertion order). -/
inductive TomlValue : Type where
  | str : String → TomlValue
  | int : Int → TomlValue
  | boolean : Bool → TomlValue
  | array : List TomlValue → TomlValue
  | table : List (String × TomlValue) → TomlValue

/-- A raw configuration tree: the top-level dict returned by `tomllib`. -/
abbrev RawTable := List (String × TomlValue)

/-- Python `d[k]`-style lookup in an insertion-ordered dict. -/
def tlookup (k : String) : RawTable → Option TomlValue
  | [] => none
  | (k', v) :: rest => if k' = k then some v else tlookup k rest

/-- Python `d[k] = v`: replace in place if the key is present (keeping its
position), otherwise append at the end (insertion order). -/
def setKey (k : String) (v : TomlValue) : RawTable → RawTable
  | [] => [(k, v)]
  | (k', v') :: rest => if k' = k then (k, v) :: rest else (k', v') :: setKey k v rest

/-! ## Python exceptions

The exceptions the embedded code paths can raise. -/

/-- One violation inside a pydantic `ValidationError`, identified by its
location path. -/
inductive Issue : Type where
  /-- a required field is absent -/
  | missing : List String → Issue
  /-- `extra="forbid"`: an undeclared field is present -/
  | extraForbidden : List String → Issue
  /-- a `str` field received a non-string -/
  | stringType : List String → Issue
  /-- a nested model field received a non-dict -/
  | modelType : List String → Issue
  /-- a `Dict[str, _]` field received a non-dict -/
  | dictType : List String → Issue
deriving DecidableEq

/-- The Python exceptions raised by the embedded code. -/
inductive PyError : Type where
  /-- `KeyError`: dict subscript with an absent (hashable) key -/
  | keyError : String → PyError
  /-- `TypeError` (unhashable key, non-subscriptable value, bad index type) -/
  | typeError : String → PyError
  /-- `AttributeError` (e.g. `.values()` on a non-dict) -/
  | attributeError : String → PyError
  /-- `IndexError`: sequence index out of range -/
  | indexError : PyError
  /-- pydantic `ValidationError` carrying every collected violation -/
  | validationError : List Issue → PyError
  /-- `FileNotFoundError` -/
  | fileNotFoundError : String → PyError
  /-- `tomllib.TOMLDecodeError` -/
  | tomlDecodeError : String → PyError
  /-- `botocore.exceptions.ClientError` with the given error code -/
  | clientError : String → PyError

/-! ## The external world

All collaborators the package talks to, as one record of pure functions. -/

/-- The response of one `ssm.get_parameter(Name=path, WithDecryption=True)`
call: either the parameter's string value, or a `ClientError` with the given
error code (`"ParameterNotFound"` or any other code). -/
inductive SsmResp : Type where
  | ok : String → SsmResp
  | err : String → SsmResp

/-- The external collaborators of the package: filesystem, environment
variables, home directory, SSM store, and the `tomllib` parser (which either
yields a table or reports a decode error message). -/
structure Env : Type where
  /-- `Path(p).exists()` -/
  pathExists : String → Bool
  /-- `os.path.isfile(p)` -/
  isFile : String → Bool
  /-- contents of the file at a path (consulted only when it is a file) -/
  fileText : String → String
  /-- `environ.get("CYHY_CONFIG_PATH", None)` -/
  envConfigPath : Option String
  /-- `environ.get("CYHY_CONFIG_SSM_PATH", None)` -/
  envSsmPath : Option String
  /-- `Path.home()` -/
  home : String
  /-- `ssm.get_parameter(Name=p, WithDecryption=True)` -/
  ssmGet : String → SsmResp
  /-- `tomllib.loads` / `tomllib.load`: parse TOML text into a table or fail
  with a `TOMLDecodeError` message -/
  parse : String → Except String RawTable

/-- Python truthiness of an `Optional[str]`: `None` and `""` are falsy. -/
def truthy : Option String → Option String
  | none => none
  | some s => if s = "" then none else some s

/-- `Path.home() / ".cyhy/cyhy.toml"`. -/
def homeConfigPath (env : Env) : String := env.home ++ "/.cyhy/cyhy.toml"

/-! ## Locator: `find_config_file` (cyhy_config.py)

A direct translation of the fallback chain; each helper is one block of the
Python function, entered when every earlier block fell through. -/

/-- Last block of `find_config_file`: try `/etc/cyhy.toml`, else raise
`FileNotFoundError`. -/
def findFromEtc (env : Env) : Except PyError String :=
  if env.pathExists "/etc/cyhy.toml" then .ok "/etc/cyhy.toml"
  else .error (.fileNotFoundError "No CyHy configuration file found.")

/-- Home-directory block of `find_config_file`. -/
def findFromHome (env : Env) : Except PyError String :=
  if env.pathExists (homeConfigPath env) then .ok (homeConfigPath env)
  else findFromEtc env

/-- Working-directory block of `find_config_file`. -/
def findFromCwd (env : Env) : Except PyError String :=
  if env.pathExists "cyhy.toml" then .ok "cyhy.toml"
  else findFromHome env

/-- `CYHY_CONFIG_PATH` block of `find_config_file`: `if env_file_value:` is a
truthiness test, and an existing path is returned while a missing one falls
through. -/
def findFromEnvVar (env : Env) : Except PyError String :=
  match truthy env.envConfigPath with
  | some p => if env.pathExists p then .ok p else findFromCwd env
  | none => findFromCwd env

/-- `find_config_file(file_path)`: explicit parameter first (`if file_path:`
truthiness, then existence), then the environment variable, working
directory, home directory and `/etc`, finally `FileNotFoundError`. -/
def find_config_file (env : Env) (file_path : Option String) : Except PyError String :=
  match truthy file_path with
  | some p => if env.pathExists p then .ok p else findFromEnvVar env
  | none => findFromEnvVar env

/-! ## Locator: `find_config` (find_config.py)

The earlier variant of the same chain; its conditions are written slightly
differently (`if config_path and Path(config_path).exists()`) but fall
through identically. -/

/-- `find_config(config_path)` from `find_config.py`. -/
def find_config (env : Env) (config_path : Option String) : Except PyError String :=
  match truthy config_path with
  | some p => if env.pathExists p then .ok p else findFromEnvVar env
  | none => findFromEnvVar env

/-! ## Spec-side description of the Locator

The specification describes the Locator as "the first candidate (in the
defined priority order) that exists".  That reading is defined here
independently of the code, to be compared with `find_config_file`. -/

/-- The candidate paths in the spec's priority order: explicit argument (when
given, i.e. truthy), `CYHY_CONFIG_PATH` (when set and nonempty),
`./cyhy.toml`, `~/.cyhy/cyhy.toml`, `/etc/cyhy.toml`. -/
def candidates (env : Env) (file_path : Option String) : List String :=
  (truthy file_path).toList ++ (truthy env.envConfigPath).toList ++
    ["cyhy.toml", homeConfigPath env, "/etc/cyhy.toml"]

/-- Spec reading of the Locator: the first existing candidate, else
`FileNotFoundError`. -/
def firstExistingCandidate (env : Env) (file_path : Option String) : Except PyError String :=
  match (candidates env file_path).find? env.pathExists with
  | some p => .ok p
  | none => .error (.fileNotFoundError "No CyHy configuration file found.")

/-! ## Python subscription

`container[key]` as used by `resolve_actions` (`mode["database"]` and
`database_dict[name]`), for the value shapes a parsed TOML tree can hold. -/

/-- Python sequence indexing `xs[i]` on a sequence of length `n`: negative
indices count from the end, out-of-range raises `IndexError`. -/
def pyIndex (n : Nat) (i : Int) : Except PyError Nat :=
  let j := if i < 0 then i + n else i
  if 0 ≤ j ∧ j < n then .ok j.toNat else .error .indexError

/-- Python `container[key]`: dict lookup with string keys (`KeyError` when
absent, `TypeError` for an unhashable key), list/string indexing with
integers, `TypeError` otherwise. -/
def pySubscript : TomlValue → TomlValue → Except PyError TomlValue
  | .table es, .str k =>
      match tlookup k es with
      | some v => .ok v
      | none => .error (.keyError k)
  | .table _, .int i => .error (.keyError (toString i))
  | .table _, .boolean b => .error (.keyError (toString b))
  | .table _, _ => .error (.typeError "unhashable type")
  | .array xs, .int i =>
      (pyIndex xs.length i).map fun j => xs.getD j (.boolean false)
  | .array _, _ => .error (.typeError "list indices must be integers")
  | .str s, .int i =>
      (pyIndex s.length i).map fun j => .str (String.mk [s.toList.getD j ' '])
  | .str _, _ => .error (.typeError "string indices must be integers")
  | _, _ => .error (.typeError "object is not subscriptable")

/-! ## `CyHyConfig.resolve_actions` (models/config_model.py)

```python
@model_validator(mode="before")
def resolve_actions(cls, values):
    database_dict = values.get("databases", {})
    for mode in values.get("modes", {}).values():
        mode["database"] = database_dict[mode["database"]]
    return values
```

The loop mutates each mode dict in place, left to right; when a subscript
raises, the modes already processed stay mutated.  The embedding therefore
returns, along with the raised exception if any, the state of the mode list
after the loop stops. -/

/-- The loop body of `resolve_actions` over the mode entries, in order.
Returns the exception that escaped the loop (if any) together with the mode
list as it stands afterwards (mutations applied up to the failure point). -/
def resolveModesList (database_dict : TomlValue) :
    List (String × TomlValue) → Option PyError × List (String × TomlValue)
  | [] => (none, [])
  | (k, v) :: rest =>
      match pySubscript v (.str "database") with
      | .error e => (some e, (k, v) :: rest)
      | .ok dbname =>
          match pySubscript database_dict dbname with
          | .error e => (some e, (k, v) :: rest)
          | .ok dbrec =>
              match v with
              | .table me =>
                  let res := resolveModesList database_dict rest
                  (res.1, (k, .table (setKey "database" dbrec me)) :: res.2)
              | _ => (some (.typeError "object does not support item assignment"),
                      (k, v) :: rest)

/-- `resolve_actions(values)`: the exception raised (if any) and the state of
`values` after the call.  On success the two coincide with pydantic's view of
the returned dict; `values.get("modes", {})` on a non-dict raises
`AttributeError` (no `.values` attribute), and an absent `"modes"` key makes
the loop a no-op. -/
def resolve_actions_run (values : RawTable) : Option PyError × RawTable :=
  let database_dict := (tlookup "databases" values).getD (.table [])
  match tlookup "modes" values with
  | none => (none, values)
  | some (.table ms) =>
      let res := resolveModesList database_dict ms
      (res.1, setKey "modes" (.table res.2) values)
  | some _ => (some (.attributeError "object has no attribute 'values'"), values)

/-! ## The pydantic models (models/config_model.py)

`Database`, `Mode` and `CyHyConfig`, all with `extra="forbid"`.  Structural
validation collects every violation before reporting, as pydantic does. -/

/-- `Database(BaseModel)`: `auth_uri: str`, `name: str`. -/
structure Database : Type where
  auth_uri : String
  name : String
deriving DecidableEq

/-- `Mode(BaseModel)`: `database: Database`, `description: str`,
`name: str`. -/
structure Mode : Type where
  database : Database
  description : String
  name : String
deriving DecidableEq

/-- `CyHyConfig(BaseModel)`: `modes: Dict[str, Mode]`,
`databases: Dict[str, Database]`. -/
structure CyHyConfig : Type where
  modes : List (String × Mode)
  databases : List (String × Database)
deriving DecidableEq

/-- Validate a `str` field: collected issues, and the value when valid. -/
def validateStr (loc : List String) : TomlValue → List Issue × Option String
  | .str s => ([], some s)
  | _ => ([.stringType loc], none)

/-- Validate one declared field of a closed model: absent fields yield a
`missing` issue, present ones are checked by the field's validator. -/
def validateField (loc : List String) (name : String)
    (f : List String → TomlValue → List Issue × Option α)
    (es : RawTable) : List Issue × Option α :=
  match tlookup name es with
  | some v => f (loc ++ [name]) v
  | none => ([.missing (loc ++ [name])], none)

/-- `extra="forbid"`: one `extraForbidden` issue per undeclared key. -/
def extraIssues (loc : List String) (declared : List String) (es : RawTable) : List Issue :=
  es.filterMap fun kv =>
    if kv.1 ∈ declared then none else some (.extraForbidden (loc ++ [kv.1]))

/-- Validate a value against the `Database` model. -/
def validateDatabase (loc : List String) : TomlValue → List Issue × Option Database
  | .table es =>
      let a := validateField loc "auth_uri" validateStr es
      let n := validateField loc "name" validateStr es
      let extra := extraIssues loc ["auth_uri", "name"] es
      match a.2, n.2 with
      | some av, some nv =>
          if extra.isEmpty then ([], some ⟨av, nv⟩) else (extra, none)
      | _, _ => (a.1 ++ n.1 ++ extra, none)
  | _ => ([.modelType loc], none)

/-- Validate a value against the `Mode` model. -/
def validateMode (loc : List String) : TomlValue → List Issue × Option Mode
  | .table es =>
      let d := validateField loc "database" validateDatabase es
      let de := validateField loc "description" validateStr es
      let n := validateField loc "name" validateStr es
      let extra := extraIssues loc ["database", "description", "name"] es
      match d.2, de.2, n.2 with
      | some dv, some dev, some nv =>
          if extra.isEmpty then ([], some ⟨dv, dev, nv⟩) else (extra, none)
      | _, _, _ => (d.1 ++ de.1 ++ n.1 ++ extra, none)
  | _ => ([.modelType loc], none)

/-- Validate a `Dict[str, α]` field: the value must be a dict, and every
entry must validate; issues from all entries are collected. -/
def validateDictOf (f : List String → TomlValue → List Issue × Option α)
    (loc : List String) : TomlValue → List Issue × Option (List (String × α))
  | .table es =>
      let results := es.map fun kv => (kv.1, f (loc ++ [kv.1]) kv.2)
      let issues := (results.map fun r => r.2.1).flatten
      let vals := results.mapM fun r => r.2.2.map fun v => (r.1, v)
      (issues, vals)
  | _ => ([.dictType loc], none)

/-- Structural validation of the `CyHyConfig` root model (after the `before`
validator has run): every violation is collected, and only a violation-free
tree yields a config object. -/
def validateCyHyConfig (values : RawTable) : Except (List Issue) CyHyConfig :=
  let m := validateField [] "modes" (validateDictOf validateMode) values
  let d := validateField [] "databases" (validateDictOf validateDatabase) values
  let extra := extraIssues [] ["modes", "databases"] values
  match m.2, d.2 with
  | some mv, some dv =>
      if extra.isEmpty then .ok ⟨mv, dv⟩ else .error extra
  | _, _ => .error (m.1 ++ d.1 ++ extra)

/-! ## `validate_config` (cyhy_config.py)

```python
def validate_config(config_dict, model):
    if not model:
        return config_dict
    try:
        config = model(**config_dict)
        return config
    except ValidationError as e:
        raise e
```

With `model = CyHyConfig`, `model(**config_dict)` first runs the `before`
validator (whose `KeyError`/`TypeError` escape unwrapped and whose in-place
mutations are visible to the caller through the shared nested dicts), then
pydantic's structural validation.  The embedding returns the call's outcome
together with the state of the caller's `config_dict` after the call. -/

/-- The value `validate_config` returns: the raw dict when no model is
given, a typed `CyHyConfig` otherwise. -/
inductive ConfigResult : Type where
  | rawDict : RawTable → ConfigResult
  | typed : CyHyConfig → ConfigResult

/-- `validate_config(config_dict, model)` with `model` either absent
(`useModel = false`) or `CyHyConfig` (`useModel = true`): the outcome, paired
with the caller's tree after the call. -/
def validate_config_run (tree : RawTable) (useModel : Bool) :
    Except PyError ConfigResult × RawTable :=
  if useModel then
    match resolve_actions_run tree with
    | (some e, post) => (.error e, post)
    | (none, post) =>
        match validateCyHyConfig post with
        | .ok cfg => (.ok (.typed cfg), post)
        | .error issues => (.error (.validationError issues), post)
  else (.ok (.rawDict tree), tree)

/-- The outcome of `validate_config`, forgetting the mutation. -/
def validate_config (tree : RawTable) (useModel : Bool) : Except PyError ConfigResult :=
  (validate_config_run tree useModel).1

/-! ## `read_config_file` (cyhy_config.py)

```python
def read_config_file(config_file, model):
    if not os.path.isfile(config_file):
        raise FileNotFoundError(...)
    try:
        with open(config_file, "rb") as f:
            config_dict = tomllib.load(f)
    except tomllib.TOMLDecodeError as e:
        raise e
    return validate_config(config_dict, model)
```
-/

/-- `read_config_file(config_file, model)`. -/
def read_config_file (env : Env) (config_file : String) (useModel : Bool) :
    Except PyError ConfigResult :=
  if env.isFile config_file then
    match env.parse (env.fileText config_file) with
    | .error msg => .error (.tomlDecodeError msg)
    | .ok tree => validate_config tree useModel
  else .error (.fileNotFoundError ("Config file not found: " ++ config_file))

/-! ## `read_config_ssm` (cyhy_config.py)

```python
def read_config_ssm(ssm_path, model):
    ssm_paths = [(ssm_path, "path"),
                 (environ.get(CYHY_CONFIG_SSM_PATH, None), "environment variable")]
    for path, source in ssm_paths:
        if path:
            ssm = client("ssm")
            try:
                response = ssm.get_parameter(Name=path, WithDecryption=True)
            except ClientError as e:
                if e.response["Error"]["Code"] == "ParameterNotFound":
                    return None
                else:
                    raise e
            param_value = response["Parameter"]["Value"]
            try:
                config_dict = tomllib.loads(param_value)
            except tomllib.TOMLDecodeError as e:
                raise e
            return validate_config(config_dict, model)
    return None
```

Inside the loop, every branch returns or raises, so only the first truthy
path is ever queried; the embedding also records the list of keys sent to
the store. -/

/-- The body of `read_config_ssm`'s loop for one truthy path. -/
def ssmAttempt (env : Env) (path : String) (useModel : Bool) :
    Except PyError (Option ConfigResult) :=
  match env.ssmGet path with
  | .err code =>
      if code = "ParameterNotFound" then .ok none
      else .error (.clientError code)
  | .ok value =>
      match env.parse value with
      | .error msg => .error (.tomlDecodeError msg)
      | .ok tree => (validate_config tree useModel).map (fun c => some c)

/-- The SSM key `read_config_ssm` acts on: the explicit `ssm_path` argument
when truthy, else the `CYHY_CONFIG_SSM_PATH` environment variable when
truthy, else none. -/
def activeSsmKey (env : Env) (ssm_path : Option String) : Option String :=
  match truthy ssm_path with
  | some p => some p
  | none => truthy env.envSsmPath

/-- `read_config_ssm(ssm_path, model)`: the outcome, paired with the list of
keys sent to the parameter store (in query order). -/
def read_config_ssm_run (env : Env) (ssm_path : Option String) (useModel : Bool) :
    Except PyError (Option ConfigResult) × List String :=
  match activeSsmKey env ssm_path with
  | some p => (ssmAttempt env p useModel, [p])
  | none => (.ok none, [])

/-- The outcome of `read_config_ssm`, forgetting the query log. -/
def read_config_ssm (env : Env) (ssm_path : Option String) (useModel : Bool) :
    Except PyError (Option ConfigResult) :=
  (read_config_ssm_run env ssm_path useModel).1

/-! ## `get_config` (cyhy_config.py)

```python
def get_config(file_path, ssm_path, model):
    config = read_config_ssm(ssm_path, model)
    if config:
        return config
    config_file_path = find_config_file(file_path)
    return read_config_file(config_file_path, model)
```
-/

/-- Python truthiness of the value `read_config_ssm` can return: a pydantic
model instance is always truthy, a dict is truthy iff nonempty. -/
def configTruthy : ConfigResult → Bool
  | .typed _ => true
  | .rawDict t => !t.isEmpty

/-- The filesystem tail of `get_config`: locate the file, then read it. -/
def get_config_from_file (env : Env) (file_path : Option String) (useModel : Bool) :
    Except PyError ConfigResult :=
  match find_config_file env file_path with
  | .ok p => read_config_file env p useModel
  | .error e => .error e

/-- `get_config(file_path, ssm_path, model)`. -/
def get_config (env : Env) (file_path ssm_path : Option String) (useModel : Bool) :
    Except PyError ConfigResult :=
  match read_config_ssm env ssm_path useModel with
  | .error e => .error e
  | .ok (some c) =>
      if configTruthy c then .ok c else get_config_from_file env file_path useModel
  | .ok none => get_config_from_file env file_path useModel

/-! ## Concrete trees from the specification's examples -/

/-- The spec's example tree:
`{"databases": {"d1": {"auth_uri": "u", "name": "d1"}},
  "modes": {"m1": {"database": "d1", "description": "x", "name": "m1"}}}`. -/
def exampleTree : RawTable :=
  [("databases", .table [("d1", .table [("auth_uri", .str "u"), ("name", .str "d1")])]),
   ("modes", .table [("m1", .table [("database", .str "d1"),
     ("description", .str "x"), ("name", .str "m1")])])]

/-- The `d1` database record of the example. -/
def exampleDatabase : Database := ⟨"u", "d1"⟩

/-- The example tree after reference resolution: the mode's `database` name
replaced in place by the full `d1` record. -/
def exampleResolvedTree : RawTable :=
  [("databases", .table [("d1", .table [("auth_uri", .str "u"), ("name", .str "d1")])]),
   ("modes", .table [("m1", .table
     [("database", .table [("auth_uri", .str "u"), ("name", .str "d1")]),
      ("description", .str "x"), ("name", .str "m1")])])]

/-- The typed configuration the example validates to. -/
def exampleConfig : CyHyConfig :=
  ⟨[("m1", ⟨exampleDatabase, "x", "m1"⟩)], [("d1", exampleDatabase)]⟩

/-- The spec's failing example: a mode whose `database` names the absent key
`"missing"`. -/
def badRefTree : RawTable :=
  [("databases", .table [("d1", .table [("auth_uri", .str "u"), ("name", .str "d1")])]),
   ("modes", .table [("m1", .table [("database", .str "missing"),
     ("description", .str "x"), ("name", .str "m1")])])]

/-! ## Spec-side description of reference resolution

The specification describes the pre-pass as: "for every entry in the `modes`
mapping, replace its `database` field (a string naming a key in the
`databases` mapping) with the full object found at that key".  That reading
is defined here independently, to be compared with the mutation
`resolve_actions` actually performs. -/

/-- The `databases` mapping as `resolve_actions` extracts it
(`values.get("databases", {})`). -/
def dbDictOf (tree : RawTable) : TomlValue :=
  (tlookup "databases" tree).getD (.table [])

/-- Spec reading of resolving one mode: replace its `database` field by the
record the field names, when that lookup succeeds. -/
def specResolveMode (dbs : TomlValue) (me : RawTable) : RawTable :=
  match tlookup "database" me with
  | some dbname =>
      match pySubscript dbs dbname with
      | .ok dbrec => setKey "database" dbrec me
      | .error _ => me
  | none => me

/-- Spec reading of resolving one entry of the `modes` mapping. -/
def specResolveEntry (dbs : TomlValue) : String × TomlValue → String × TomlValue
  | (k, .table me) => (k, .table (specResolveMode dbs me))
  | kv => kv

/-- Spec reading of the whole pre-pass: every mode entry resolved. -/
def specResolve (tree : RawTable) : RawTable :=
  match tlookup "modes" tree with
  | some (.table ms) =>
      setKey "modes" (.table (ms.map (specResolveEntry (dbDictOf tree)))) tree
  | _ => tree

/-! ## Observers and concrete environments used by the theorems -/

/-- Whether the example tree's mode `m1` still records its database by name
(a string): an observer separating the tree before validation from the tree
after it. -/
def m1DatabaseIsString (t : RawTable) : Bool :=
  match tlookup "modes" t with
  | some (.table ms) =>
      match tlookup "m1" ms with
      | some (.table me) =>
          match tlookup "database" me with
          | some (.str _) => true
          | _ => false
      | _ => false
  | _ => false

/-- A minimal world: no files exist, no environment variables are set, the
SSM store knows no parameters, and the parser rejects everything. -/
def baseEnv : Env where
  pathExists := fun _ => false
  isFile := fun _ => false
  fileText := fun _ => ""
  envConfigPath := none
  envSsmPath := none
  home := "/home/user"
  ssmGet := fun _ => .err "ParameterNotFound"
  parse := fun _ => .error "Invalid statement (at line 1, column 1)"

/-- A world whose SSM store fails with an error other than not-found. -/
def ssmDeniedEnv : Env :=
  { baseEnv with ssmGet := fun _ => .err "AccessDeniedException" }

/-- A world holding one file and one SSM parameter, both containing text the
TOML parser rejects. -/
def badTomlEnv : Env :=
  { baseEnv with
      isFile := fun _ => true
      fileText := fun _ => "this is not valid TOML"
      ssmGet := fun _ => .ok "this is not valid TOML"
      parse := fun _ => .error "Expected an equals sign after a key (at line 1, column 6)" }

/-! ## Lemmas about the Locator -/

theorem findFromCwd_eq_find (env : Env) :
    findFromCwd env =
      match ["cyhy.toml", homeConfigPath env, "/etc/cyhy.toml"].find? env.pathExists with
      | some p => .ok p
      | none => .error (.fileNotFoundError "No CyHy configuration file found.") := by
  by_cases h1 : env.pathExists "cyhy.toml" <;>
    by_cases h2 : env.pathExists (homeConfigPath env) <;>
      by_cases h3 : env.pathExists "/etc/cyhy.toml" <;>
        simp [findFromCwd, findFromHome, findFromEtc, List.find?, h1, h2, h3]

theorem findFromEnvVar_eq_find (env : Env) :
    findFromEnvVar env =
      match ((truthy env.envConfigPath).toList ++
          ["cyhy.toml", homeConfigPath env, "/etc/cyhy.toml"]).find? env.pathExists with
      | some p => .ok p
      | none => .error (.fileNotFoundError "No CyHy configuration file found.") := by
  rcases h : truthy env.envConfigPath with _ | p
  · simpa [findFromEnvVar, h] using findFromCwd_eq_find env
  · by_cases hp : env.pathExists p
    · simp [findFromEnvVar, h, hp, List.find?]
    · simpa [findFromEnvVar, h, hp, List.find?] using findFromCwd_eq_find env

theorem find_config_file_eq_firstExisting (env : Env) (file_path : Option String) :
    find_config_file env file_path = firstExistingCandidate env file_path := by
  rcases h : truthy file_path with _ | p
  · simpa [find_config_file, firstExistingCandidate, candidates, h]
      using findFromEnvVar_eq_find env
  · by_cases hp : env.pathExists p
    · simp [find_config_file, firstExistingCandidate, candidates, h, hp, List.find?]
    · simpa [find_config_file, firstExistingCandidate, candidates, h, hp, List.find?]
        using findFromEnvVar_eq_find env

theorem find_config_eq_find_config_file (env : Env) (p : Option String) :
    find_config env p = find_config_file env p := rfl

/-! ## Lemmas about reference resolution -/

theorem resolveModesList_err_of_missing (ds ms : List (String × TomlValue))
    (k : String) (me : RawTable) (d : String)
    (hmem : (k, TomlValue.table me) ∈ ms)
    (hdb : tlookup "database" me = some (.str d))
    (hmiss : tlookup d ds = none) :
    (resolveModesList (.table ds) ms).1.isSome := by
  induction ms with
  | nil => cases hmem
  | cons hd tl ih =>
    rcases List.mem_cons.mp hmem with heq | hmem'
    · rw [← heq]
      simp [resolveModesList, pySubscript, hdb, hmiss]
    · obtain ⟨k', v'⟩ := hd
      simp only [resolveModesList]
      cases h1 : pySubscript v' (.str "database") with
      | error e => simp
      | ok dbname =>
        cases h2 : pySubscript (.table ds) dbname with
        | error e => simp [h2]
        | ok dbrec =>
          cases v' with
          | table me' => simpa [h2] using ih hmem'
          | str s => simp [h2]
          | int i => simp [h2]
          | boolean b => simp [h2]
          | array xs => simp [h2]

theorem pySubscript_table_str (me : RawTable) (k : String) (v : TomlValue)
    (h : pySubscript (.table me) (.str k) = .ok v) : tlookup k me = some v := by
  cases h' : tlookup k me with
  | none => simp [pySubscript, h'] at h
  | some w => simp [pySubscript, h'] at h; rw [h]

theorem resolveModesList_ok_post (dbs : TomlValue) (ms : List (String × TomlValue))
    (h : (resolveModesList dbs ms).1 = none) :
    (resolveModesList dbs ms).2 = ms.map (specResolveEntry dbs) := by
  induction ms with
  | nil => rfl
  | cons hd tl ih =>
    obtain ⟨k, v⟩ := hd
    simp only [resolveModesList] at h ⊢
    cases h1 : pySubscript v (.str "database") with
    | error e => simp [h1] at h
    | ok dbname =>
      cases h2 : pySubscript dbs dbname with
      | error e => simp [h1, h2] at h
      | ok dbrec =>
        cases v with
        | table me =>
          simp only [h1, h2] at h ⊢
          have hdb := pySubscript_table_str me "database" dbname h1
          simp [List.map, specResolveEntry, specResolveMode, hdb, h2, ih h]
        | str s => simp [pySubscript] at h1
        | int i => simp [pySubscript] at h1
        | boolean b => simp [pySubscript] at h1
        | array xs => simp [pySubscript] at h1

theorem validate_config_run_post (tree : RawTable) :
    (validate_config_run tree true).2 = (resolve_actions_run tree).2 := by
  simp only [validate_config_run]
  rcases h : resolve_actions_run tree with ⟨_ | e, post⟩
  · cases hv : validateCyHyConfig post <;> simp [hv]
  · simp

theorem resolve_actions_run_ok_post (tree : RawTable)
    (h : (resolve_actions_run tree).1 = none) :
    (resolve_actions_run tree).2 = specResolve tree := by
  simp only [resolve_actions_run, specResolve, dbDictOf] at h ⊢
  cases hm : tlookup "modes" tree with
  | none => simp [hm]
  | some v =>
    cases v with
    | table ms =>
      simp only [hm] at h ⊢
      exact congrArg (fun l => setKey "modes" (.table l) tree)
        (resolveModesList_ok_post _ ms h)
    | str s => simp [hm] at h
    | int i => simp [hm] at h
    | boolean b => simp [hm] at h
    | array xs => simp [hm] at h

/-! ## The claims -/

/-- Claim C1: for every combination of candidates (explicit path argument,
`CYHY_CONFIG_PATH` environment variable, `./cyhy.toml`, `~/.cyhy/cyhy.toml`,
`/etc/cyhy.toml`), `find_config_file` returns the first candidate in that
priority order whose path exists; in particular, a given-but-absent explicit
path is just a candidate that fails its existence check, so the search
continues rather than failing.  The `find_config` variant behaves
identically. -/
theorem find_config_file_first_existing_candidate (env : Env) (file_path : Option String) :
    find_config_file env file_path = firstExistingCandidate env file_path ∧
    find_config env file_path = firstExistingCandidate env file_path :=
  ⟨find_config_file_eq_firstExisting env file_path,
   (find_config_eq_find_config_file env file_path).trans
     (find_config_file_eq_firstExisting env file_path)⟩

/-- Claim C2: validation with the `CyHyConfig` model replaces every mode's
`database` name by the full record from the `databases` mapping strictly
before structural validation: the spec's example tree validates to a typed
configuration whose mode `m1` carries the full `d1` record (not the string
`"d1"`), while the unresolved tree would be rejected by structural
validation alone (the `database` field of `m1` is not an embedded object). -/
theorem validate_config_example_resolves_reference :
    validate_config exampleTree true = .ok (.typed exampleConfig) ∧
    exampleConfig.modes =
      [("m1", { database := { auth_uri := "u", name := "d1" },
                description := "x", name := "m1" })] ∧
    validateCyHyConfig exampleTree = .error [.modelType ["modes", "m1", "database"]] :=
  ⟨rfl, rfl, rfl⟩

/-- Claim C3: a `ParameterNotFound` answer from the parameter store for the
key `read_config_ssm` acts on is a soft miss: `read_config_ssm` returns
`None` without raising, and `get_config` continues to the filesystem
fallback chain. -/
theorem ssm_not_found_soft_miss (env : Env) (ssm_path : Option String) (p : String)
    (m : Bool) (hk : activeSsmKey env ssm_path = some p)
    (hnf : env.ssmGet p = .err "ParameterNotFound") :
    read_config_ssm env ssm_path m = .ok none ∧
    ∀ file_path, get_config env file_path ssm_path m = get_config_from_file env file_path m := by
  have h1 : read_config_ssm env ssm_path m = .ok none := by
    simp [read_config_ssm, read_config_ssm_run, hk, ssmAttempt, hnf]
  exact ⟨h1, fun file_path => by simp [get_config, h1]⟩

theorem ssm_not_found_soft_miss_witness :
    read_config_ssm baseEnv (some "/cyhy/config") true = .ok none ∧
    get_config baseEnv none (some "/cyhy/config") true =
      get_config_from_file baseEnv none true := by
  have h := ssm_not_found_soft_miss baseEnv (some "/cyhy/config") "/cyhy/config" true rfl rfl
  exact ⟨h.1, h.2 none⟩

/-- Claim C4: a parameter-store failure with any code other than
`ParameterNotFound` is raised from `read_config_ssm` and propagated by
`get_config`; no filesystem fallback is performed (the outcome is that very
error, independently of the explicit file path and of what the filesystem
holds). -/
theorem ssm_error_propagates (env : Env) (ssm_path : Option String) (p code : String)
    (m : Bool) (hk : activeSsmKey env ssm_path = some p)
    (he : env.ssmGet p = .err code) (hcode : code ≠ "ParameterNotFound") :
    read_config_ssm env ssm_path m = .error (.clientError code) ∧
    ∀ file_path, get_config env file_path ssm_path m = .error (.clientError code) := by
  have h1 : read_config_ssm env ssm_path m = .error (.clientError code) := by
    simp [read_config_ssm, read_config_ssm_run, hk, ssmAttempt, he, hcode]
  exact ⟨h1, fun file_path => by simp [get_config, h1]⟩

theorem ssm_error_propagates_witness :
    read_config_ssm ssmDeniedEnv (some "/cyhy/config") true =
      .error (.clientError "AccessDeniedException") ∧
    get_config ssmDeniedEnv none (some "/cyhy/config") true =
      .error (.clientError "AccessDeniedException") := by
  have h := ssm_error_propagates ssmDeniedEnv (some "/cyhy/config") "/cyhy/config"
    "AccessDeniedException" true rfl rfl (by decide)
  exact ⟨h.1, h.2 none⟩

/-- Claim C5: validating a tree in which some mode's `database` field names
a key absent from the `databases` mapping raises (the named cross-reference
fails to resolve, a `KeyError` escaping `resolve_actions` — the spec's
`ReferenceError`) and never yields a value built from a silent default. -/
theorem missing_database_reference_raises (values : RawTable)
    (ms me ds : List (String × TomlValue)) (k d : String)
    (hmodes : tlookup "modes" values = some (.table ms))
    (hmem : (k, TomlValue.table me) ∈ ms)
    (hdb : tlookup "database" me = some (.str d))
    (hds : (tlookup "databases" values).getD (.table []) = .table ds)
    (hmiss : tlookup d ds = none) :
    ∃ e, validate_config values true = .error e := by
  obtain ⟨e, he⟩ := Option.isSome_iff_exists.mp
    (resolveModesList_err_of_missing ds ms k me d hmem hdb hmiss)
  refine ⟨e, ?_⟩
  simp [validate_config, validate_config_run, resolve_actions_run, hmodes, hds, he]

theorem missing_database_reference_raises_witness :
    ∃ e, validate_config badRefTree true = .error e :=
  missing_database_reference_raises badRefTree
    [("m1", .table [("database", .str "missing"),
      ("description", .str "x"), ("name", .str "m1")])]
    [("database", .str "missing"), ("description", .str "x"), ("name", .str "m1")]
    [("d1", .table [("auth_uri", .str "u"), ("name", .str "d1")])]
    "m1" "missing" rfl (List.mem_cons_self _ _) rfl rfl rfl

/-- Claim C6 is false as stated: `validate_config` is not free of side
effects on the caller's tree.  With the `CyHyConfig` model, the `before`
validator rewrites the shared nested mode dicts in place, so after a call on
the spec's example tree the caller's tree has changed (the mode's `database`
field is no longer a string). -/
theorem validate_config_mutates_counterexample :
    (validate_config_run exampleTree true).2 ≠ exampleTree := by
  intro h
  have h2 := congrArg m1DatabaseIsString h
  rw [show m1DatabaseIsString (validate_config_run exampleTree true).2 = false from rfl,
    show m1DatabaseIsString exampleTree = true from rfl] at h2
  exact Bool.noConfusion h2

/-- Claim C6 (amended): with no model, `validate_config` leaves the caller's
tree unchanged; with the `CyHyConfig` model, reference resolution mutates it
in place, and when resolution succeeds the caller's tree afterwards is
exactly the spec-level substitution (every mode's `database` name replaced
by the referenced record). -/
theorem validate_config_mutation_amended (tree : RawTable) :
    (validate_config_run tree false).2 = tree ∧
    ((resolve_actions_run tree).1 = none →
      (validate_config_run tree true).2 = specResolve tree) :=
  ⟨rfl, fun h => (validate_config_run_post tree).trans (resolve_actions_run_ok_post tree h)⟩

theorem validate_config_mutation_amended_witness :
    (validate_config_run exampleTree false).2 = exampleTree ∧
    (validate_config_run exampleTree true).2 = specResolve exampleTree :=
  ⟨(validate_config_mutation_amended exampleTree).1,
   (validate_config_mutation_amended exampleTree).2 rfl⟩

/-- Claim C7: when every candidate configuration source is exhausted (no
explicit, environment, working-directory, home-directory or `/etc` candidate
exists), `find_config_file` raises `FileNotFoundError` and no other
error. -/
theorem find_config_file_raises_when_exhausted (env : Env) (file_path : Option String)
    (h : ∀ c ∈ candidates env file_path, env.pathExists c = false) :
    find_config_file env file_path =
      .error (.fileNotFoundError "No CyHy configuration file found.") := by
  have hn : (candidates env file_path).find? env.pathExists = none :=
    List.find?_eq_none.mpr fun c hc => by simp [h c hc]
  rw [find_config_file_eq_firstExisting, firstExistingCandidate, hn]

theorem find_config_file_raises_when_exhausted_witness :
    find_config_file baseEnv none =
      .error (.fileNotFoundError "No CyHy configuration file found.") :=
  find_config_file_raises_when_exhausted baseEnv none (fun _ _ => rfl)

/-- Claim C8: validating a tree missing required fields raises a
`ValidationError` enumerating all violations collected in one pass: for the
empty tree, both missing required fields (`modes` and `databases`) are
listed, not just the first encountered. -/
theorem empty_tree_validation_lists_all_missing :
    ∃ issues, validate_config [] true = .error (.validationError issues) ∧
      Issue.missing ["modes"] ∈ issues ∧ Issue.missing ["databases"] ∈ issues :=
  ⟨[.missing ["modes"], .missing ["databases"]], rfl, by simp, by simp⟩

/-- Claim C9: when the TOML parser rejects the text, the decode error is
raised and no partial tree is returned — from `read_config_file` for file
contents and from `read_config_ssm` for a value fetched from the parameter
store alike. -/
theorem invalid_toml_raises_decode_error (env : Env) (m : Bool) :
    (∀ path msg, env.isFile path = true →
      env.parse (env.fileText path) = .error msg →
      read_config_file env path m = .error (.tomlDecodeError msg)) ∧
    (∀ ssm_path p value msg, activeSsmKey env ssm_path = some p →
      env.ssmGet p = .ok value → env.parse value = .error msg →
      read_config_ssm env ssm_path m = .error (.tomlDecodeError msg)) := by
  constructor
  · intro path msg hf hp
    simp [read_config_file, hf, hp]
  · intro ssm_path p value msg hk hg hp
    simp [read_config_ssm, read_config_ssm_run, hk, ssmAttempt, hg, hp]

theorem invalid_toml_raises_decode_error_witness :
    read_config_file badTomlEnv "/etc/cyhy.toml" true =
      .error (.tomlDecodeError "Expected an equals sign after a key (at line 1, column 6)") ∧
    read_config_ssm badTomlEnv (some "/cyhy/config") true =
      .error (.tomlDecodeError "Expected an equals sign after a key (at line 1, column 6)") :=
  ⟨(invalid_toml_raises_decode_error badTomlEnv true).1 "/etc/cyhy.toml" _ rfl rfl,
   (invalid_toml_raises_decode_error badTomlEnv true).2 (some "/cyhy/config")
     "/cyhy/config" "this is not valid TOML" _ rfl rfl rfl⟩

/-- Claim C10: `read_config_ssm` performs at most one store lookup per call:
the keys queried are exactly the first truthy candidate of (explicit
`ssm_path`, `CYHY_CONFIG_SSM_PATH`); with a truthy explicit key, a
`ParameterNotFound` answer returns `None` immediately with only that key
queried (the environment-variable candidate is never tried); with neither
key present, it returns `None` without contacting the store. -/
theorem read_config_ssm_single_lookup (env : Env) (ssm_path : Option String) (m : Bool) :
    (read_config_ssm_run env ssm_path m).2 = (activeSsmKey env ssm_path).toList ∧
    (∀ p, truthy ssm_path = some p → env.ssmGet p = .err "ParameterNotFound" →
      read_config_ssm_run env ssm_path m = (.ok none, [p])) ∧
    (activeSsmKey env ssm_path = none →
      read_config_ssm_run env ssm_path m = (.ok none, [])) := by
  refine ⟨?_, ?_, ?_⟩
  · cases hk : activeSsmKey env ssm_path <;> simp [read_config_ssm_run, hk]
  · intro p hp hnf
    have hk : activeSsmKey env ssm_path = some p := by simp [activeSsmKey, hp]
    simp [read_config_ssm_run, hk, ssmAttempt, hnf]
  · intro hk
    simp [read_config_ssm_run, hk]

theorem read_config_ssm_single_lookup_witness :
    read_config_ssm_run baseEnv (some "/cyhy/config") true = (.ok none, ["/cyhy/config"]) ∧
    read_config_ssm_run baseEnv none true = (.ok none, []) :=
  ⟨(read_config_ssm_single_lookup baseEnv (some "/cyhy/config") true).2.1
     "/cyhy/config" rfl rfl,
   (read_config_ssm_single_lookup baseEnv none true).2.2 rfl⟩

end CyhyConfig
